import Mathlib

/-
Verification of the recording-session controller described in the repository
specification.  The repository ships only the C interface declaration
(src/pkg/video/recorder_darwin.h):

  int recorder_initialize(void);
  int recorder_record_screen(const char *path, double duration, char **error_out);
  void recorder_cancel_active(void);
  void recorder_free_string(char *ptr);

The implementation behind these declarations is not part of src/, so the
controller is modelled here from the specification document: its lifecycle
state machine (Idle, Active, then Completed, Cancelled or Failed, and back to
Idle), its validation order, its cancellation protocol and its error-message
contract.  The capture engine is opaque; its resolution of a session is an
oracle parameter.
-/

set_option autoImplicit false

namespace Recorder

/-- Modelled from the spec: the Session phase of the state machine in §4,
States: Idle, Active, Completed, Cancelled, Failed. -/
inductive Phase where
  | idle
  | active
  | completed
  | cancelled
  | failed
  deriving DecidableEq, Repr

/-- Modelled from the spec: the StatusCode domain of §6. -/
inductive StatusCode where
  | ok
  | notInitialized
  | invalidArgument
  | invalidPath
  | alreadyRecording
  | cancelled
  | engineFailure
  deriving DecidableEq, Repr

/-- Modelled from the spec: the float64 durationSeconds argument.  A rational
carries every finite value the validation distinguishes; the non-finite
floating-point values get their own constructors so that the check
"duration <= 0 or non-finite" of §4.2 can be stated faithfully. -/
inductive Duration where
  | finite (seconds : ℚ)
  | nan
  | posInf
  | negInf
  deriving DecidableEq, Repr

/-- A duration passes validation exactly when it is finite and positive
(§4.2: duration <= 0 or non-finite fails with InvalidArgument). -/
def Duration.valid : Duration → Bool
  | .finite s => decide (0 < s)
  | .nan => false
  | .posInf => false
  | .negInf => false

/-- Modelled from the spec: the Session record of §3 — target output path,
requested duration (both immutable for the session) and a cancellation flag.
The captured error is carried by the call result rather than stored. -/
structure Session where
  path : String
  duration : Duration
  cancelRequested : Bool
  deriving DecidableEq, Repr

/-- Modelled from the spec: the process-wide state of the controller — the
Subsystem State flag `ready` (§3), the single Session slot with its phase, the
last reported result, and two instrumentation counters the spec's testable
properties refer to: how often the capture engine was opened and how often the
initializer's preparation ran. -/
structure CtrlState where
  ready : Bool
  phase : Phase
  session : Option Session
  lastResult : Option StatusCode
  engineCalls : Nat
  prepCalls : Nat
  deriving DecidableEq, Repr

/-- The state a fresh process starts in: not initialized, Idle, no session. -/
def initialState : CtrlState :=
  { ready := false
    phase := Phase.idle
    session := none
    lastResult := none
    engineCalls := 0
    prepCalls := 0 }

/-- Modelled from the spec: the part of the environment the path validation of
§4.2 consults — whether the parent directory of a path is writable. -/
structure Env where
  parentWritable : String → Bool

/-- A path passes validation exactly when it is non-empty and its parent
directory is writable (§4.2). -/
def validPath (env : Env) (p : String) : Bool :=
  p != "" && env.parentWritable p

/-- Modelled from the spec: the opaque capture engine's final state for one
session — it completed naturally, it acknowledged a stop request, or it
reported an internal fault with a message (§4.2, §6). -/
inductive EngineOutcome where
  | completed
  | stopped
  | fault (msg : String)
  deriving DecidableEq, Repr

/-- Modelled from the spec: the synchronous precondition checks of §4.2.
NotInitialized is checked first (§3: session-starting operations fail fast
before initialization succeeds); a second start while a session is Active
always fails with AlreadyRecording (§8); argument and path validation follow
in the order listed in §4.2.  Returns the failure status, or none when the
start request is accepted. -/
def validate (env : Env) (st : CtrlState) (path : String) (dur : Duration) :
    Option StatusCode :=
  if !st.ready then some StatusCode.notInitialized
  else if st.phase = Phase.active then some StatusCode.alreadyRecording
  else if !dur.valid then some StatusCode.invalidArgument
  else if !(validPath env path) then some StatusCode.invalidPath
  else none

/-- Modelled from the spec: recorder_initialize (§4.1).  After a success the
flag is set and a repeat call is a no-op returning success without running the
preparation again; after a failure the flag stays clear and a repeat call
retries the preparation.  The oracle `prepOk` is whether the preparation
(permission checks, device enumeration) succeeds this time.  The integer
outcome of the C declaration is modelled as a Bool success flag. -/
def recorder_initialize (prepOk : Bool) (st : CtrlState) : CtrlState × Bool :=
  if st.ready then (st, true)
  else if prepOk then ({ st with ready := true, prepCalls := st.prepCalls + 1 }, true)
  else ({ st with prepCalls := st.prepCalls + 1 }, false)

/-- Modelled from the spec: the first half of a start call — validation, and on
acceptance the transition to Active with a fresh Session record and one call
into the capture engine (§4.2 behavior).  Returns the failure status, or none
when the session is now Active. -/
def startAcquire (env : Env) (st : CtrlState) (path : String) (dur : Duration) :
    CtrlState × Option StatusCode :=
  match validate env st path dur with
  | some c => (st, some c)
  | none =>
      ({ st with
          phase := Phase.active
          session := some { path := path, duration := dur, cancelRequested := false }
          engineCalls := st.engineCalls + 1 }, none)

/-- Modelled from the spec: how the controller reports the engine's final
state (§4.2): natural completion is phase Completed and status Ok with no
message; an acknowledged stop is phase Cancelled and the distinguished
non-error status Cancelled with no message; an engine fault is phase Failed
and status EngineFailure with the fault's message. -/
structure EngineResolution where
  terminal : Phase
  status : StatusCode
  message : Option String
  deriving DecidableEq, Repr

/-- The controller's mapping from the engine's final state to exactly one
terminal phase, status and optional owned message. -/
def resolve : EngineOutcome → EngineResolution
  | .completed => { terminal := Phase.completed, status := StatusCode.ok, message := none }
  | .stopped => { terminal := Phase.cancelled, status := StatusCode.cancelled, message := none }
  | .fault msg =>
      { terminal := Phase.failed, status := StatusCode.engineFailure, message := some msg }

/-- Modelled from the spec: the second half of a start call — the blocked
thread wakes up with the engine's final state, the terminal phase is reported,
and the Session returns to Idle before the call returns (§4.2 postcondition,
§4 state machine). -/
def startFinish (st : CtrlState) (o : EngineOutcome) : CtrlState × EngineResolution :=
  let r := resolve o
  ({ st with phase := Phase.idle, session := none, lastResult := some r.status }, r)

/-- What one call to recorder_record_screen returns and leaves behind: the
process state after the call, the status code, the error_out string (owned by
the caller when present), the sequence of phases the session moved through
during the call, and the terminal phase reported (none when validation
rejected the request before a session existed). -/
structure CallResult where
  state : CtrlState
  status : StatusCode
  error_out : Option String
  phaseTrace : List Phase
  terminal : Option Phase
  deriving DecidableEq, Repr

/-- Modelled from the spec: recorder_record_screen (§4.2), the blocking start
operation.  A rejected request returns its usage-error status at once, with no
engine interaction, no error message and no phase change.  An accepted request
transitions to Active, hands off to the engine, and returns the resolution of
the engine's final state `o`, with the Session back in Idle. -/
def recorder_record_screen (env : Env) (o : EngineOutcome) (st : CtrlState)
    (path : String) (dur : Duration) : CallResult :=
  match startAcquire env st path dur with
  | (st1, some c) =>
      { state := st1, status := c, error_out := none, phaseTrace := [], terminal := none }
  | (st1, none) =>
      let fin := startFinish st1 o
      { state := fin.1
        status := fin.2.status
        error_out := fin.2.message
        phaseTrace := [Phase.active, fin.2.terminal, Phase.idle]
        terminal := some fin.2.terminal }

/-- Modelled from the spec: recorder_cancel_active (§4.3).  It takes no
session argument — it targets the process's single session slot — and returns
no status and no error: its whole effect is to set the cancellation flag of
the Active session, and it is a no-op when no session is Active. -/
def recorder_cancel_active (st : CtrlState) : CtrlState :=
  if st.phase = Phase.active then
    { st with session := Option.map (fun s => { s with cancelRequested := true }) st.session }
  else st

/-- The transitions the §4 state machine allows:
Idle to Active, Active to a terminal phase, a terminal phase back to Idle. -/
def stepOK : Phase → Phase → Bool
  | Phase.idle, Phase.active => true
  | Phase.active, Phase.completed => true
  | Phase.active, Phase.cancelled => true
  | Phase.active, Phase.failed => true
  | Phase.completed, Phase.idle => true
  | Phase.cancelled, Phase.idle => true
  | Phase.failed, Phase.idle => true
  | _, _ => false

/-- A list of phases is a chain of allowed transitions from a starting phase. -/
def chainOK : Phase → List Phase → Bool
  | _, [] => true
  | p, q :: rest => stepOK p q && chainOK q rest

/-- The process states an execution can reach: the fresh state, and closure
under the four kinds of steps threads can take — an initialize call, the
acquiring half of a start call, the finishing half of a start call that is in
flight, and a cancel call.  Interleavings of concurrent calls are exactly the
sequences of these steps. -/
inductive Reachable : CtrlState → Prop where
  | start_state : Reachable initialState
  | step_init (prepOk : Bool) {st : CtrlState} (h : Reachable st) :
      Reachable ( recorder_initialize prepOk st).1
  | step_acquire (env : Env) (path : String) (dur : Duration) {st : CtrlState}
      (h : Reachable st) : Reachable ( startAcquire env st path dur).1
  | step_finish (o : EngineOutcome) {st : CtrlState} (ha : st.phase = Phase.active)
      (h : Reachable st) : Reachable ( startFinish st o).1
  | step_cancel {st : CtrlState} (h : Reachable st) :
      Reachable ( recorder_cancel_active st)

/-- A concrete environment for witnesses: every parent directory writable. -/
def envW : Env := { parentWritable := fun _ => true }

/-- A concrete output path for witnesses. -/
def pathW : String := "/tmp/out.mov"

/-- A concrete valid duration for witnesses: five seconds. -/
def durW : Duration := Duration.finite 5

/-- The state after a successful initialize call on the fresh state. -/
def stIdleInit : CtrlState := ( recorder_initialize true initialState).1

/-- The mid-flight state while a start call accepted from `stIdleInit` is
blocked: its session is Active. -/
def stActive : CtrlState := ( startAcquire envW stIdleInit pathW durW).1

theorem validate_not_ready {env : Env} {st : CtrlState} {path : String} {dur : Duration}
    (h : st.ready = false) : validate env st path dur = some StatusCode.notInitialized := by
  simp [validate, h]

theorem validate_none_inv {env : Env} {st : CtrlState} {path : String} {dur : Duration}
    (h : validate env st path dur = none) :
    st.ready = true ∧ st.phase ≠ Phase.active ∧ dur.valid = true ∧
      validPath env path = true := by
  unfold validate at h
  split_ifs at h with h1 h2 h3 h4
  simp only [Bool.not_eq_true, Bool.not_eq_false, Bool.not_eq_true'] at h1 h3 h4
  exact ⟨h1, h2, h3, h4⟩

theorem validate_ne_already {env : Env} {st : CtrlState} {path : String} {dur : Duration}
    (h : st.phase ≠ Phase.active) :
    validate env st path dur ≠ some StatusCode.alreadyRecording := by
  unfold validate
  split_ifs with h1 h2 h3 <;> simp_all

theorem rrs_rejected {env : Env} {st : CtrlState} {path : String} {dur : Duration}
    {c : StatusCode} (o : EngineOutcome) (h : validate env st path dur = some c) :
    recorder_record_screen env o st path dur =
      { state := st, status := c, error_out := none, phaseTrace := [], terminal := none } := by
  simp [recorder_record_screen, startAcquire, h]

theorem rrs_accepted {env : Env} {st : CtrlState} {path : String} {dur : Duration}
    (o : EngineOutcome) (h : validate env st path dur = none) :
    recorder_record_screen env o st path dur =
      { state :=
          { st with
              phase := Phase.idle
              session := none
              lastResult := some (resolve o).status
              engineCalls := st.engineCalls + 1 }
        status := (resolve o).status
        error_out := (resolve o).message
        phaseTrace := [Phase.active, (resolve o).terminal, Phase.idle]
        terminal := some (resolve o).terminal } := by
  simp [recorder_record_screen, startAcquire, h, startFinish]

theorem cancel_fields (st : CtrlState) :
    ( recorder_cancel_active st).ready = st.ready ∧
    ( recorder_cancel_active st).phase = st.phase ∧
    ( recorder_cancel_active st).lastResult = st.lastResult ∧
    ( recorder_cancel_active st).engineCalls = st.engineCalls := by
  unfold recorder_cancel_active
  split_ifs <;> simp

/-- Reachability invariant: a session can only be Active after initialization
succeeded, because validation rejects every start request with NotInitialized
before that and nothing ever clears the flag. -/
theorem active_ready {st : CtrlState} (hr : Reachable st) :
    st.phase = Phase.active → st.ready = true := by
  induction hr with
  | start_state => intro h; simp [initialState] at h
  | step_init prepOk h ih =>
      intro hp
      unfold recorder_initialize at hp ⊢
      split_ifs at hp ⊢ with h1 h2 <;> simp_all
  | step_acquire env path dur h ih =>
      intro hp
      unfold startAcquire at hp ⊢
      rcases hv : validate env _ path dur with _ | c
      · have := validate_none_inv hv
        simp [hv] at hp ⊢
        exact this.1
      · simp [hv] at hp ⊢
        exact ih hp
  | step_finish o ha h ih =>
      intro hp
      simp [startFinish] at hp
  | step_cancel h ih =>
      intro hp
      unfold recorder_cancel_active at hp ⊢
      split_ifs at hp ⊢ with h1 <;> simp_all

theorem reachable_stActive : Reachable stActive :=
  Reachable.step_acquire envW pathW durW
    (Reachable.step_init true Reachable.start_state)

/-- C1: in every reachable process state whose session is in the Active phase,
a second call to recorder_record_screen returns AlreadyRecording at once: it
makes no engine call, produces no error message, records no phase transition,
and returns the process state exactly as it was — phase, cancellation flag and
session record untouched — so the existing session's eventual outcome is
undisturbed; the single session slot of the state keeps at most one session
Active at any instant. -/
theorem claim_C1 (env : Env) (o : EngineOutcome) (st : CtrlState) (path : String)
    (dur : Duration) (hr : Reachable st) (ha : st.phase = Phase.active) :
    recorder_record_screen env o st path dur =
      { state := st, status := StatusCode.alreadyRecording, error_out := none,
        phaseTrace := [], terminal := none } := by
  have hready := active_ready hr ha
  have hv : validate env st path dur = some StatusCode.alreadyRecording := by
    simp [validate, hready, ha]
  exact rrs_rejected o hv

/-- C1 witness: the concrete mid-flight Active state, with a second start
request carrying the same arguments as the first. -/
theorem claim_C1_witness :
    recorder_record_screen envW EngineOutcome.completed stActive pathW durW =
      { state := stActive, status := StatusCode.alreadyRecording, error_out := none,
        phaseTrace := [], terminal := none } :=
  claim_C1 envW EngineOutcome.completed stActive pathW durW reachable_stActive (by decide)

/-- C2: for a session in flight, however many concurrent cancel calls land
before the engine settles, the controller reports exactly one terminal phase,
and the report is consistent with the engine's final state: natural completion
is Completed with status Ok, an acknowledged stop is Cancelled with the
Cancelled status, and a fault is Failed with EngineFailure. -/
theorem claim_C2 (st : CtrlState) (k : Nat) (o : EngineOutcome)
    (ha : st.phase = Phase.active) :
    (∃! t : Phase, ( startFinish ( recorder_cancel_active^[k] st) o).2.terminal = t) ∧
    (( startFinish ( recorder_cancel_active^[k] st) o).2.terminal = Phase.completed ↔
      o = EngineOutcome.completed) ∧
    (( startFinish ( recorder_cancel_active^[k] st) o).2.terminal = Phase.cancelled ↔
      o = EngineOutcome.stopped) ∧
    (( startFinish ( recorder_cancel_active^[k] st) o).2.terminal = Phase.failed ↔
      ∃ m, o = EngineOutcome.fault m) ∧
    (( startFinish ( recorder_cancel_active^[k] st) o).2.status = StatusCode.ok ↔
      o = EngineOutcome.completed) ∧
    (( startFinish ( recorder_cancel_active^[k] st) o).2.status = StatusCode.cancelled ↔
      o = EngineOutcome.stopped) := by
  refine ⟨⟨_, rfl, fun y hy => hy.symm⟩, ?_, ?_, ?_, ?_, ?_⟩ <;>
    cases o <;> simp [startFinish, resolve]

/-- C2 witness: one cancel call lands while the concrete session is Active and
the engine acknowledges the stop: the one reported terminal phase is Cancelled
with the Cancelled status. -/
theorem claim_C2_witness :
    ( startFinish ( recorder_cancel_active^[1] stActive) EngineOutcome.stopped).2.terminal =
        Phase.cancelled ∧
    ( startFinish ( recorder_cancel_active^[1] stActive) EngineOutcome.stopped).2.status =
        StatusCode.cancelled :=
  ⟨(claim_C2 stActive 1 EngineOutcome.stopped (by decide)).2.2.1.mpr rfl,
   (claim_C2 stActive 1 EngineOutcome.stopped (by decide)).2.2.2.2.2.mpr rfl⟩

/-- C3: a start call entered from Idle has its phase back at Idle when it
returns, whatever the outcome — validation failure, completion, cancellation
or engine fault; the phases traversed during the call form a chain of the
state machine Idle to Active to a terminal phase and back to Idle; and in the
returned state a subsequent start is no longer rejected with
AlreadyRecording. -/
theorem claim_C3 (env : Env) (o : EngineOutcome) (st : CtrlState) (path : String)
    (dur : Duration) (hidle : st.phase = Phase.idle) :
    (recorder_record_screen env o st path dur).state.phase = Phase.idle ∧
    chainOK st.phase (recorder_record_screen env o st path dur).phaseTrace = true ∧
    ∀ env2 p2 d2, validate env2 (recorder_record_screen env o st path dur).state p2 d2 ≠
      some StatusCode.alreadyRecording := by
  rcases hv : validate env st path dur with _ | c
  · rw [rrs_accepted o hv]
    refine ⟨rfl, ?_, ?_⟩
    · rw [hidle]; cases o <;> rfl
    · intro env2 p2 d2
      exact validate_ne_already (by simp)
  · rw [rrs_rejected o hv]
    refine ⟨hidle, rfl, ?_⟩
    intro env2 p2 d2
    exact validate_ne_already (by simp [hidle])

/-- C3 witness: an accepted start on the concrete initialized state whose
engine faults with a full disk still comes back in Idle, traversed an allowed
chain, and a follow-up start request is not rejected as AlreadyRecording. -/
theorem claim_C3_witness :
    (recorder_record_screen envW (EngineOutcome.fault "disk full") stIdleInit pathW
        durW).state.phase = Phase.idle ∧
    chainOK stIdleInit.phase
      (recorder_record_screen envW (EngineOutcome.fault "disk full") stIdleInit pathW
        durW).phaseTrace = true ∧
    validate envW
      (recorder_record_screen envW (EngineOutcome.fault "disk full") stIdleInit pathW
        durW).state pathW durW ≠ some StatusCode.alreadyRecording := by
  have h := claim_C3 envW (EngineOutcome.fault "disk full") stIdleInit pathW durW (by decide)
  exact ⟨h.1, h.2.1, h.2.2 envW pathW durW⟩

/-- C4: recorder_record_screen hands the caller an error message only when the
status is EngineFailure; on Ok and on Cancelled no error handle is produced. -/
theorem claim_C4 (env : Env) (o : EngineOutcome) (st : CtrlState) (path : String)
    (dur : Duration) :
    ((recorder_record_screen env o st path dur).error_out ≠ none →
      (recorder_record_screen env o st path dur).status = StatusCode.engineFailure) ∧
    ((recorder_record_screen env o st path dur).status = StatusCode.ok ∨
        (recorder_record_screen env o st path dur).status = StatusCode.cancelled →
      (recorder_record_screen env o st path dur).error_out = none) := by
  rcases hv : validate env st path dur with _ | c
  · rw [rrs_accepted o hv]
    cases o <;> simp [resolve]
  · rw [rrs_rejected o hv]
    simp

/-- C4 witness: the naturally completed concrete session returns Ok and hands
back no error message. -/
theorem claim_C4_witness :
    (recorder_record_screen envW EngineOutcome.completed stIdleInit pathW durW).error_out =
      none :=
  (claim_C4 envW EngineOutcome.completed stIdleInit pathW durW).2 (Or.inl (by decide))

/-- C5: when no session is Active, recorder_cancel_active is a no-op: the
state it returns is the state it was given — initialization flag, last session
result and everything else unchanged — and it has no error to signal (its
result is only a state). -/
theorem claim_C5 (st : CtrlState) (h : st.phase ≠ Phase.active) :
    recorder_cancel_active st = st := by
  simp [ recorder_cancel_active, h]

/-- C5 witness: cancelling on the concrete initialized Idle state changes
nothing. -/
theorem claim_C5_witness : recorder_cancel_active stIdleInit = stIdleInit :=
  claim_C5 stIdleInit (by decide)

/-- C6: with the subsystem initialized and no session Active, a start request
whose duration is nonpositive or non-finite returns InvalidArgument for every
path, with the state unchanged — in particular the engine-call count stays
what it was (the capture engine is never invoked) and no session enters the
Active phase (the recorded phase trace is empty).  The initialized and
not-Active hypotheses are forced by check precedence: NotInitialized and
AlreadyRecording are detected before argument validation. -/
theorem claim_C6 (env : Env) (o : EngineOutcome) (st : CtrlState) (path : String)
    (dur : Duration) (hready : st.ready = true) (hna : st.phase ≠ Phase.active)
    (hd : dur.valid = false) :
    recorder_record_screen env o st path dur =
      { state := st, status := StatusCode.invalidArgument, error_out := none,
        phaseTrace := [], terminal := none } := by
  have hv : validate env st path dur = some StatusCode.invalidArgument := by
    simp [validate, hready, hna, hd]
  exact rrs_rejected o hv

/-- C6 witness: a zero duration on the concrete initialized Idle state is
rejected with InvalidArgument and the state is untouched. -/
theorem claim_C6_witness :
    recorder_record_screen envW EngineOutcome.completed stIdleInit pathW
        (Duration.finite 0) =
      { state := stIdleInit, status := StatusCode.invalidArgument, error_out := none,
        phaseTrace := [], terminal := none } :=
  claim_C6 envW EngineOutcome.completed stIdleInit pathW (Duration.finite 0)
    (by decide) (by decide) (by decide)

/-- C7: before initialize has succeeded in the process, every start request
fails fast with NotInitialized: whatever the arguments and whatever the engine
would have done, the call returns NotInitialized with the state unchanged — no
engine interaction (engine-call count unchanged), no session, no error
message. -/
theorem claim_C7 (env : Env) (o : EngineOutcome) (st : CtrlState) (path : String)
    (dur : Duration) (h : st.ready = false) :
    recorder_record_screen env o st path dur =
      { state := st, status := StatusCode.notInitialized, error_out := none,
        phaseTrace := [], terminal := none } :=
  rrs_rejected o (validate_not_ready h)

/-- C7 witness: a start on the fresh, never-initialized state is rejected with
NotInitialized. -/
theorem claim_C7_witness :
    recorder_record_screen envW EngineOutcome.completed initialState pathW durW =
      { state := initialState, status := StatusCode.notInitialized, error_out := none,
        phaseTrace := [], terminal := none } :=
  claim_C7 envW EngineOutcome.completed initialState pathW durW rfl

/-- C8: with the subsystem initialized, no session Active and a valid
duration, a start request whose path is empty or whose parent directory is not
writable returns InvalidPath with the state unchanged: no engine call, no
session, no error message.  The extra hypotheses are forced by check
precedence: NotInitialized, AlreadyRecording and InvalidArgument are detected
before the path check. -/
theorem claim_C8 (env : Env) (o : EngineOutcome) (st : CtrlState) (path : String)
    (dur : Duration) (hready : st.ready = true) (hna : st.phase ≠ Phase.active)
    (hd : dur.valid = true) (hp : validPath env path = false) :
    recorder_record_screen env o st path dur =
      { state := st, status := StatusCode.invalidPath, error_out := none,
        phaseTrace := [], terminal := none } := by
  have hv : validate env st path dur = some StatusCode.invalidPath := by
    simp [validate, hready, hna, hd, hp]
  exact rrs_rejected o hv

/-- C8 witness: an empty path on the concrete initialized Idle state is
rejected with InvalidPath and the state is untouched. -/
theorem claim_C8_witness :
    recorder_record_screen envW EngineOutcome.completed stIdleInit "" durW =
      { state := stIdleInit, status := StatusCode.invalidPath, error_out := none,
        phaseTrace := [], terminal := none } :=
  claim_C8 envW EngineOutcome.completed stIdleInit "" durW (by decide) (by decide)
    (by decide) (by decide)

/-- C9: recorder_initialize is idempotent after success — with the flag
already set, any further call returns the state unchanged together with
success, running no preparation; after a failure the flag is still clear, and
a further call runs the preparation again (the preparation count grows) and
succeeds when the preparation now succeeds, rather than caching the
failure. -/
theorem claim_C9 (st : CtrlState) :
    (st.ready = true → ∀ prepOk, recorder_initialize prepOk st = (st, true)) ∧
    (st.ready = false →
      ( recorder_initialize false st).2 = false ∧
      ( recorder_initialize false st).1.ready = false ∧
      ( recorder_initialize false st).1.prepCalls = st.prepCalls + 1 ∧
      ( recorder_initialize true ( recorder_initialize false st).1).1.prepCalls =
        st.prepCalls + 2 ∧
      ( recorder_initialize true ( recorder_initialize false st).1).2 = true ∧
      ( recorder_initialize true ( recorder_initialize false st).1).1.ready = true) := by
  constructor
  · intro h prepOk
    simp [ recorder_initialize, h]
  · intro h
    simp [ recorder_initialize, h]

/-- C9 witness: repeating the call on the concrete successfully initialized
state is a no-op returning success; after a failed call on the fresh state, a
retry whose preparation succeeds returns success. -/
theorem claim_C9_witness :
    recorder_initialize true stIdleInit = (stIdleInit, true) ∧
    ( recorder_initialize true ( recorder_initialize false initialState).1).2 = true :=
  ⟨(claim_C9 stIdleInit).1 (by decide) true,
   ((claim_C9 initialState).2 rfl).2.2.2.2.1⟩

/-- C10: recorder_cancel_active takes no session argument — it acts on the
process's single session slot — and yields no status code and no error handle:
its result is only a state, whose initialization flag, phase, last result and
engine-call count are those of the input.  When no session is Active it does
nothing at all; when one is Active its whole effect is to set that session's
cancellation flag, and the cancellation becomes observable only through the
blocked start call: when the engine acknowledges the stop, the blocked call
reports status Cancelled with no error message. -/
theorem claim_C10 (st : CtrlState) :
    ( recorder_cancel_active st).ready = st.ready ∧
    ( recorder_cancel_active st).phase = st.phase ∧
    ( recorder_cancel_active st).lastResult = st.lastResult ∧
    ( recorder_cancel_active st).engineCalls = st.engineCalls ∧
    (st.phase ≠ Phase.active → recorder_cancel_active st = st) ∧
    (st.phase = Phase.active →
      ( recorder_cancel_active st).session =
        Option.map (fun s => { s with cancelRequested := true }) st.session ∧
      ( startFinish ( recorder_cancel_active st) EngineOutcome.stopped).2.status =
        StatusCode.cancelled ∧
      ( startFinish ( recorder_cancel_active st) EngineOutcome.stopped).2.message =
        none) := by
  refine ⟨(cancel_fields st).1, (cancel_fields st).2.1, (cancel_fields st).2.2.1,
    (cancel_fields st).2.2.2, ?_, ?_⟩
  · intro h
    simp [ recorder_cancel_active, h]
  · intro h
    refine ⟨?_, rfl, rfl⟩
    simp [ recorder_cancel_active, h]

/-- C10 witness: on the concrete Active state the cancel call only sets the
session's cancellation flag and the blocked call then reports Cancelled; on
the concrete Idle state the cancel call changes nothing. -/
theorem claim_C10_witness :
    ( recorder_cancel_active stActive).session =
      Option.map (fun s => { s with cancelRequested := true }) stActive.session ∧
    ( startFinish ( recorder_cancel_active stActive) EngineOutcome.stopped).2.status =
      StatusCode.cancelled ∧
    recorder_cancel_active stIdleInit = stIdleInit :=
  ⟨((claim_C10 stActive).2.2.2.2.2 (by decide)).1,
   ((claim_C10 stActive).2.2.2.2.2 (by decide)).2.1,
   (claim_C10 stIdleInit).2.2.2.2.1 (by decide)⟩

end Recorder
